import Mathlib

/-
Verification of the deployment-resolution scripts of sap-ai-core-llm-proxy.

The development shallowly embeds the decision logic of the Python sources:
  find_opus_deployment.py  - token request prelude, listing, correlation
  list_configurations.py   - listing error handling, name classification
  list_deployments.py      - token validation, listing error handling,
                             model-name extraction from deployment details
  test_deployment.py       - deployment probe outcome construction
  test_claude_code_integration.py - auth-token lookup for proxy tests

Python dictionaries with optionally absent keys are embedded as structures
of Option-typed fields; Python truthiness of strings and the rendering of
None inside f-strings are modelled explicitly (truthy, pyStr); str.lower and
the substring operator are modelled at the character-list level (pyLower,
pyIn).  Network effects are cut at the response boundary: each function that
performs an HTTP call is embedded as a function of the delivered response
(or of the transport outcome), and what the script does before or instead of
the call is captured by explicit outcome constructors.
-/

/-- Rendering of an optionally absent string inside a Python f-string:
an absent value prints as the literal text None. -/
def pyStr : Option String → String
  | none => "None"
  | some s => s

/-- Python truthiness of an optionally absent string: absent and empty
strings are falsy, every other string is truthy. -/
def truthy : Option String → Bool
  | none => false
  | some s => s != ""

/-- Model of Python str.lower restricted to ASCII, applied per character:
uppercase ASCII letters map to the corresponding lowercase letters and
every other character is unchanged. -/
def pyCharLower (c : Char) : Char :=
  if 65 ≤ c.toNat ∧ c.toNat ≤ 90 then Char.ofNat (c.toNat + 32) else c

/-- Model of Python str.lower: pyCharLower mapped over the characters. -/
def pyLower (s : String) : String := ⟨s.data.map pyCharLower⟩

/-- Helper for the substring test: the first list is a prefix of the second. -/
def isStartOf : List Char → List Char → Bool
  | [], _ => true
  | _ :: _, [] => false
  | c :: cs, d :: ds => c == d && isStartOf cs ds

/-- Helper for the substring test: the first list occurs contiguously
somewhere in the second. -/
def occursIn (n : List Char) : List Char → Bool
  | [] => n.isEmpty
  | h :: t => isStartOf n (h :: t) || occursIn n t

/-- Model of the Python expression needle in hay on strings. -/
def pyIn (needle hay : String) : Bool := occursIn needle.data hay.data

theorem toNat_ofNat_valid (n : Nat) (h : n.isValidChar) :
    (Char.ofNat n).toNat = n := by
  simp only [Char.ofNat, dif_pos h]
  rfl

theorem pyCharLower_idem (c : Char) :
    pyCharLower (pyCharLower c) = pyCharLower c := by
  unfold pyCharLower
  by_cases h : 65 ≤ c.toNat ∧ c.toNat ≤ 90
  · have hv : (c.toNat + 32).isValidChar := Or.inl (by omega)
    have ht : (Char.ofNat (c.toNat + 32)).toNat = c.toNat + 32 :=
      toNat_ofNat_valid _ hv
    have hn : ¬ (65 ≤ c.toNat + 32 ∧ c.toNat + 32 ≤ 90) := by omega
    rw [if_pos h, ht, if_neg hn]
  · simp [h]

theorem pyLower_idem (s : String) : pyLower (pyLower s) = pyLower s := by
  unfold pyLower
  simp only [List.map_map]
  congr 1
  apply List.map_congr_left
  intro a _
  exact pyCharLower_idem a

/-- Configuration resource as the scripts read it: only the id and name
keys are consulted, each possibly absent (dict.get). -/
structure PyConfiguration where
  id : Option String
  name : Option String
deriving DecidableEq

/-- Deployment resource as the scripts read it: id, configurationId and
status keys, each possibly absent (dict.get). -/
structure PyDeployment where
  id : Option String
  configurationId : Option String
  status : Option String
deriving DecidableEq

/-- Entry appended to opus_deployments in find_opus_deployment.main. -/
structure ModelMatch where
  deployment_id : Option String
  deployment_url : String
  status : Option String
  config_name : Option String
  config_id : Option String
deriving DecidableEq

/-- URL derivation used at every call site, from the f-string
base plus the literal path segment plus the deployment id. -/
def deployment_url (base did : String) : String :=
  base ++ "/v2/inference/deployments/" ++ did

/-- Name classification of find_opus_deployment.main lines 89-90: the
lowered name must contain one of two fixed tokens. -/
def opus_name_test (name : String) : Bool :=
  pyIn "claude-4.5-opus" (pyLower name) || pyIn "claude45_opus" (pyLower name)

/-- Name classification of list_configurations.main line 96 (and of
list_deployments.main line 177): the lowered name must contain one of
three fixed tokens. -/
def claude_name_test (name : String) : Bool :=
  pyIn "claude" (pyLower name) || pyIn "anthropic" (pyLower name) ||
    pyIn "opus" (pyLower name)

/-- Inner loop of find_opus_deployment.main lines 112-123: one match is
appended for every filtered configuration whose id equals the deployment
configurationId (Python None equals None here, hence Option equality). -/
def matches_for (base : Option String) (opus_configs : List PyConfiguration)
    (d : PyDeployment) : List ModelMatch :=
  (opus_configs.filter (fun oc => oc.id == d.configurationId)).map (fun oc =>
    { deployment_id := d.id
      deployment_url := deployment_url (pyStr base) (pyStr d.id)
      status := d.status
      config_name := oc.name
      config_id := oc.id })

/-- Correlation step of find_opus_deployment.main lines 87-123 with the
name predicate abstracted: filter the configurations by the predicate on
the name (default empty string when absent), then run the nested matching
loops over all deployments. -/
def correlate (base : Option String) (p : String → Bool)
    (configs : List PyConfiguration) (deps : List PyDeployment) :
    List ModelMatch :=
  (deps.flatMap
    (matches_for base (configs.filter (fun c => p (c.name.getD "")))))

/-- Service key as the scripts read it: the four consulted fields, each
possibly absent (dict.get, with the nested serviceurls.AI_API_URL path
flattened into one optional field). -/
structure ServiceKey where
  clientid : Option String
  clientsecret : Option String
  url : Option String
  ai_api_url : Option String
deriving DecidableEq

/-- What a get_token variant does up to the point of the network call:
either it aborts with an exit code first, or it reaches the POST, which we
record with the token URL and the pre-encoding id:secret string. -/
inductive TokenAttempt where
  | credFailure (exitCode : Nat)
  | networkCall (tokenUrl : String) (authString : String)
deriving DecidableEq

/-- Test that a token attempt reached the network. -/
def attempts_network : TokenAttempt → Bool
  | TokenAttempt.credFailure _ => false
  | TokenAttempt.networkCall _ _ => true

/-- Token request prelude of find_opus_deployment.get_token (identical in
list_configurations.py and test_deployment.py): no validation at all, the
POST is always attempted, with absent fields rendered as None text. -/
def get_token_fo (sk : ServiceKey) : TokenAttempt :=
  TokenAttempt.networkCall
    (pyStr sk.url ++ "/oauth/token?grant_type=client_credentials")
    (pyStr sk.clientid ++ ":" ++ pyStr sk.clientsecret)

/-- Token request prelude of list_deployments.get_token: exits with code 1
when any of clientid, clientsecret or url is falsy, otherwise attempts the
POST.  The ai_api_url field is not consulted here. -/
def get_token_ld (sk : ServiceKey) : TokenAttempt :=
  if truthy sk.clientid && truthy sk.clientsecret && truthy sk.url then
    TokenAttempt.networkCall
      (pyStr sk.url ++ "/oauth/token?grant_type=client_credentials")
      (pyStr sk.clientid ++ ":" ++ pyStr sk.clientsecret)
  else
    TokenAttempt.credFailure 1

/-- A credential descriptor with any of the four consulted fields empty or
missing, as quantified over by the spec sentence on token acquisition. -/
def missingAnyCredField (sk : ServiceKey) : Bool :=
  !(truthy sk.clientid) || !(truthy sk.clientsecret) || !(truthy sk.url) ||
    !(truthy sk.ai_api_url)

/-- Listing response as delivered to a listing call: HTTP status, body
text, and the parsed resources field of the JSON body when present. -/
structure ListResp (α : Type) where
  status : Nat
  text : String
  resources : Option (List α)
deriving DecidableEq

/-- Outcome of a listing call: a returned sequence, an exception raised to
the caller carrying status and body text, or a process exit. -/
inductive LRes (α : Type) where
  | ok (items : List α)
  | raised (status : Nat) (text : String)
  | exited (code : Nat)
deriving DecidableEq

/-- Test that a listing outcome surfaces the failure to the caller rather
than returning a value. -/
def surfaced {α : Type} : LRes α → Bool
  | LRes.ok _ => false
  | LRes.raised _ _ => true
  | LRes.exited _ => true

/-- Listing of configurations in find_opus_deployment.list_configurations:
raise_for_status propagates every error status (400 and above) to the
caller, otherwise the resources field is returned with default empty. -/
def list_configurations_fo (r : ListResp PyConfiguration) :
    LRes PyConfiguration :=
  if 400 ≤ r.status then LRes.raised r.status r.text
  else LRes.ok (r.resources.getD [])

/-- Listing of deployments in find_opus_deployment.list_deployments: same
shape as the configurations variant. -/
def list_deployments_fo (r : ListResp PyDeployment) : LRes PyDeployment :=
  if 400 ≤ r.status then LRes.raised r.status r.text
  else LRes.ok (r.resources.getD [])

/-- Listing of configurations in list_configurations.list_configurations:
the raised error is caught, printed, and converted into an empty-list
return value. -/
def list_configurations_lc (r : ListResp PyConfiguration) :
    LRes PyConfiguration :=
  if 400 ≤ r.status then LRes.ok []
  else LRes.ok (r.resources.getD [])

/-- Listing of deployments in list_deployments.list_deployments: the
raised error is caught, printed with status and body, and the process
exits with code 1. -/
def list_deployments_ld (r : ListResp PyDeployment) : LRes PyDeployment :=
  if 400 ≤ r.status then LRes.exited 1
  else LRes.ok (r.resources.getD [])

/-- JSON value, as much of it as the probe touches. -/
inductive JVal where
  | null
  | str (s : String)
  | arr (items : List JVal)
  | obj (fields : List (String × JVal))

/-- Lookup of a key in a JSON object field list (dict keys are unique, so
first-match lookup is the dictionary access). -/
def jlookup (fields : List (String × JVal)) (k : String) : Option JVal :=
  match fields with
  | [] => none
  | (k2, v) :: rest => if k2 == k then some v else jlookup rest k

/-- Lookup of a response header by name. -/
def headerGet (hdrs : List (String × String)) (k : String) : Option String :=
  (hdrs.find? (fun p => p.1 == k)).map (fun p => p.2)

/-- Transport outcome of the probe POST in test_deployment.test_deployment:
a delivered response with status, headers, body text and parsed body JSON;
a timeout of the request; or some other exception with its message. -/
inductive NetOutcome where
  | resp (status : Nat) (headers : List (String × String)) (text : String)
      (body : JVal)
  | timedOut
  | exn (msg : String)

/-- Result dictionary built by test_deployment.test_deployment, embedded
with one optional field per key that some branch includes. -/
structure ProbeResult where
  success : Bool
  status_code : Option Nat
  model_header : Option String
  response : Option JVal
  error : Option String

/-- Probe of test_deployment.test_deployment lines 58-81: on status 200
the success dictionary is built with the x-model-id header (default the
text unknown) and the parsed body; on any other status the failure
dictionary carries the status and body text; a timeout is caught first and
reported with the fixed message; any other exception is reported with its
message. -/
def test_deployment_result (net : NetOutcome) : ProbeResult :=
  match net with
  | NetOutcome.resp status hdrs text body =>
    if status == 200 then
      { success := true
        status_code := some status
        model_header := some ((headerGet hdrs "x-model-id").getD "unknown")
        response := some body
        error := none }
    else
      { success := false
        status_code := some status
        model_header := none
        response := none
        error := some text }
  | NetOutcome.timedOut =>
    { success := false
      status_code := none
      model_header := none
      response := none
      error := some "Request timeout" }
  | NetOutcome.exn msg =>
    { success := false
      status_code := none
      model_header := none
      response := none
      error := some msg }

/-- Text extraction of test_deployment.main lines 126-130: read the
content field (default empty list), and when the list is non-empty take
the text field of its first block (default empty string).  The result is
none exactly when no text is printed by the script. -/
def extract_first_text (j : JVal) : Option String :=
  match j with
  | JVal.obj fs =>
    match jlookup fs "content" with
    | some (JVal.arr (JVal.obj g :: _)) =>
      some (match jlookup g "text" with
            | some (JVal.str t) => t
            | _ => "")
    | _ => none
  | _ => none

/-- Body of the spec test vector for the probe. -/
def probe_test_body : JVal :=
  JVal.obj [("content",
    JVal.arr [JVal.obj [("type", JVal.str "text"), ("text", JVal.str "test")]])]

/-- Deployment details as consulted by list_deployments.main lines 147-163:
the nested backend model name is some value exactly when the whole path
details.resources.backend_details.model.name is present, and the
configurationName key is optional. -/
structure DeploymentDetails where
  backend_model_name : Option String
  configurationName : Option String
deriving DecidableEq

/-- Model-name extraction of list_deployments.main lines 147-163: start
from the sentinel text unknown, overwrite it with the nested backend model
name when that path is present, and only when the value still equals the
sentinel fall back to a non-empty configurationName. -/
def extract_model_name (d : DeploymentDetails) : String :=
  let m := match d.backend_model_name with
    | some n => n
    | none => "unknown"
  if m == "unknown" then
    let c := d.configurationName.getD ""
    if c == "" then m else c
  else m

/-- Extraction chain as the claim words it, for comparison: the first
non-empty value along the order backend model name, configuration name,
with the text unknown when both are empty or absent. -/
def first_nonempty_extract (d : DeploymentDetails) : String :=
  let c1 := d.backend_model_name.getD ""
  if c1 == "" then
    let c2 := d.configurationName.getD ""
    if c2 == "" then "unknown" else c2
  else c1

/-- Proxy routing configuration as read by the integration test: the
secret_authentication_tokens list (default empty when the key is absent is
folded into the list value). -/
structure ProxyConfig where
  secret_authentication_tokens : List String
deriving DecidableEq

/-- Auth-token lookup of test_claude_code_integration.get_auth_token lines
33-49: a truthy environment value wins; otherwise the first entry of the
token list of an existing config file when non-empty; otherwise the
hardcoded constant. -/
def get_auth_token (env : Option String) (cfg : Option ProxyConfig) :
    String :=
  let fromConfig : String :=
    match cfg with
    | some c =>
      match c.secret_authentication_tokens with
      | t :: _ => t
      | [] => "sk-my-secret-key-123"
    | none => "sk-my-secret-key-123"
  match env with
  | some t => if t == "" then fromConfig else t
  | none => fromConfig

/-- Claim C1: a ModelMatch is emitted for a deployment exactly when some
configuration in the listing has the configurationId of the deployment as its
id and its name satisfies the predicate, and the match carries the
id, derived URL and status of the deployment together with the id and
name of the matched configuration. -/
theorem correlate_match_characterization
    (base : Option String) (p : String → Bool)
    (configs : List PyConfiguration) (deps : List PyDeployment)
    (m : ModelMatch) :
    m ∈ correlate base p configs deps ↔
      ∃ d, d ∈ deps ∧ ∃ c, c ∈ configs ∧ p (c.name.getD "") = true ∧
        c.id = d.configurationId ∧
        m = { deployment_id := d.id
              deployment_url := deployment_url (pyStr base) (pyStr d.id)
              status := d.status
              config_name := c.name
              config_id := c.id } := by
  simp only [correlate, matches_for, List.mem_flatMap, List.mem_map,
    List.mem_filter, beq_iff_eq]
  constructor
  · rintro ⟨d, hd, oc, ⟨⟨hcfg, hpred⟩, hid⟩, rfl⟩
    exact ⟨d, hd, oc, hcfg, hpred, hid, rfl⟩
  · rintro ⟨d, hd, c, hc, hp, hid, rfl⟩
    exact ⟨d, hd, c, ⟨⟨hc, hp⟩, hid⟩, rfl⟩

/-- Concrete instance of claim C1 on the scenario from the spec test
vectors: the running opus deployment is matched with all its fields. -/
theorem correlate_match_characterization_witness :
    ({ deployment_id := some "d1"
       deployment_url := "https://api.example.com/v2/inference/deployments/d1"
       status := some "RUNNING"
       config_name := some "claude-4.5-opus-v1"
       config_id := some "c1" } : ModelMatch) ∈
      correlate (some "https://api.example.com") opus_name_test
        [⟨some "c1", some "claude-4.5-opus-v1"⟩, ⟨some "c2", some "gpt-4o"⟩]
        [⟨some "d1", some "c1", some "RUNNING"⟩,
         ⟨some "d2", some "c2", some "RUNNING"⟩] :=
  (correlate_match_characterization _ _ _ _ _).mpr
    ⟨⟨some "d1", some "c1", some "RUNNING"⟩, by decide,
     ⟨some "c1", some "claude-4.5-opus-v1"⟩, by decide, by decide, rfl,
     by decide⟩

/-- Claim C2 counterexample: a credential descriptor with the API base URL
missing is a descriptor with one of the four fields missing, yet the
validating get_token variant still reaches the network call; and the
find_opus_deployment variant reaches the network call even with every
field missing. -/
theorem get_token_missing_field_counterexample :
    missingAnyCredField
        ⟨some "id", some "secret", some "https://auth.example.com", none⟩
      = true
    ∧ attempts_network (get_token_ld
        ⟨some "id", some "secret", some "https://auth.example.com", none⟩)
      = true
    ∧ missingAnyCredField ⟨none, none, none, none⟩ = true
    ∧ attempts_network (get_token_fo ⟨none, none, none, none⟩) = true := by
  decide

/-- Claim C2 as amended: only the list_deployments variant validates, and
it aborts before the network call exactly when one of the three fields
client id, client secret, auth base URL is empty or missing; the
find_opus_deployment variant always attempts the network call. -/
theorem get_token_validation_amended (sk : ServiceKey) :
    (get_token_ld sk = TokenAttempt.credFailure 1 ↔
      (truthy sk.clientid && truthy sk.clientsecret && truthy sk.url)
        = false)
    ∧ attempts_network (get_token_fo sk) = true := by
  constructor
  · unfold get_token_ld
    cases hb : (truthy sk.clientid && truthy sk.clientsecret &&
        truthy sk.url) <;> simp [hb]
  · rfl

/-- Concrete instance of the amended claim C2: an all-present key reaches
the network, a key missing its client secret aborts with exit code 1. -/
theorem get_token_validation_amended_witness :
    (get_token_ld ⟨some "id", none, some "https://auth.example.com",
        some "https://api.example.com"⟩ = TokenAttempt.credFailure 1 ↔
      (truthy (some "id") && truthy (none : Option String) &&
        truthy (some "https://auth.example.com")) = false)
    ∧ attempts_network (get_token_fo ⟨some "id", none,
        some "https://auth.example.com", some "https://api.example.com"⟩)
      = true :=
  get_token_validation_amended
    ⟨some "id", none, some "https://auth.example.com",
     some "https://api.example.com"⟩

/-- Claim C3 counterexample: a configuration listing that receives a 500
response with body text is converted by list_configurations.py into a
successful empty-sequence return, not surfaced to the caller. -/
theorem list_configurations_silent_default :
    list_configurations_lc ⟨500, "Internal Server Error", none⟩ = LRes.ok []
    ∧ surfaced (list_configurations_lc ⟨500, "Internal Server Error", none⟩)
      = false := by
  decide

/-- Claim C3 as amended: on an error response (status 400 and above) the
find_opus_deployment listing calls surface the status and body text to the
caller by raising, the list_deployments.py listing exits the process, and
the list_configurations.py listing converts the failure into an
empty-sequence return. -/
theorem listing_error_surfacing (rc : ListResp PyConfiguration)
    (rd : ListResp PyDeployment) (hc : 400 ≤ rc.status)
    (hd : 400 ≤ rd.status) :
    list_configurations_fo rc = LRes.raised rc.status rc.text
    ∧ list_deployments_fo rd = LRes.raised rd.status rd.text
    ∧ list_deployments_ld rd = LRes.exited 1
    ∧ list_configurations_lc rc = LRes.ok [] := by
  refine ⟨?_, ?_, ?_, ?_⟩ <;>
    simp [list_configurations_fo, list_deployments_fo, list_deployments_ld,
      list_configurations_lc, hc, hd]

/-- Concrete instance of the amended claim C3 at a 500 configuration
response and a 403 deployment response. -/
theorem listing_error_surfacing_witness :
    (400 ≤ 500 ∧ 400 ≤ 403)
    ∧ (list_configurations_fo ⟨500, "Internal Server Error", none⟩
        = LRes.raised 500 "Internal Server Error"
      ∧ list_deployments_fo ⟨403, "Forbidden", none⟩
        = LRes.raised 403 "Forbidden"
      ∧ list_deployments_ld ⟨403, "Forbidden", none⟩ = LRes.exited 1
      ∧ list_configurations_lc ⟨500, "Internal Server Error", none⟩
        = LRes.ok []) :=
  ⟨⟨by decide, by decide⟩,
   listing_error_surfacing ⟨500, "Internal Server Error", none⟩
     ⟨403, "Forbidden", none⟩ (by decide) (by decide)⟩

/-- Claim C4 counterexample: on details whose backend model name is the
empty string and whose configuration name is non-empty, the extraction
returns the empty string rather than the first non-empty value along the
claimed order; and on a backend model name equal to the sentinel text the
extraction returns the configuration name although the backend value is
non-empty. -/
theorem extract_model_name_not_first_nonempty :
    extract_model_name ⟨some "", some "cfg-name"⟩ = ""
    ∧ first_nonempty_extract ⟨some "", some "cfg-name"⟩ = "cfg-name"
    ∧ extract_model_name ⟨some "", some "cfg-name"⟩
        ≠ first_nonempty_extract ⟨some "", some "cfg-name"⟩
    ∧ extract_model_name ⟨some "unknown", some "cfg-name"⟩ = "cfg-name"
    ∧ first_nonempty_extract ⟨some "unknown", some "cfg-name"⟩
        = "unknown" := by
  decide

/-- Claim C4 as amended: in the details-based extraction the backend
model-name field wins whenever present with a value other than the
sentinel text unknown (even when empty); otherwise a non-empty
configuration name wins; otherwise the result is the sentinel.  The
dedicated-header strategy lives only in the separate probe script, which
reports the x-model-id header with default unknown and no other source. -/
theorem extract_model_name_order (d : DeploymentDetails) :
    (∀ n, d.backend_model_name = some n → n ≠ "unknown" →
      extract_model_name d = n)
    ∧ ((d.backend_model_name = none ∨ d.backend_model_name = some "unknown")
      → ∀ c, d.configurationName = some c → c ≠ "" →
        extract_model_name d = c)
    ∧ ((d.backend_model_name = none ∨ d.backend_model_name = some "unknown")
      → (d.configurationName = none ∨ d.configurationName = some "") →
        extract_model_name d = "unknown")
    ∧ (∀ hdrs text j, (test_deployment_result
          (NetOutcome.resp 200 hdrs text j)).model_header
        = some ((headerGet hdrs "x-model-id").getD "unknown")) := by
  refine ⟨?_, ?_, ?_, ?_⟩
  · intro n hn hne
    simp [extract_model_name, hn, hne]
  · rintro (hb | hb) c hc hcne <;> simp [extract_model_name, hb, hc, hcne]
  · rintro (hb | hb) (hc | hc) <;> simp [extract_model_name, hb, hc]
  · intro hdrs text j
    rfl

/-- Concrete instances of the amended claim C4: a real backend name wins, a
missing backend path falls back to the configuration name, a sentinel
backend value with empty fallback yields the sentinel. -/
theorem extract_model_name_order_witness :
    extract_model_name ⟨some "anthropic--claude", some "cfg"⟩
      = "anthropic--claude"
    ∧ extract_model_name ⟨none, some "cfg"⟩ = "cfg"
    ∧ extract_model_name ⟨some "unknown", none⟩ = "unknown" :=
  ⟨(extract_model_name_order _).1 "anthropic--claude" rfl (by decide),
   (extract_model_name_order _).2.1 (Or.inl rfl) "cfg" rfl (by decide),
   (extract_model_name_order _).2.2.1 (Or.inr rfl) (Or.inl rfl)⟩

/-- Claim C5: a timed-out probe yields the distinguished timeout result
with no status code and the fixed message, a 500 response yields a failure
result carrying status code 500 and the body text, and the two results
differ in their status-code field. -/
theorem probe_timeout_distinct_from_500 (hdrs : List (String × String))
    (text : String) (j : JVal) :
    test_deployment_result NetOutcome.timedOut
      = { success := false, status_code := none, model_header := none,
          response := none, error := some "Request timeout" }
    ∧ test_deployment_result (NetOutcome.resp 500 hdrs text j)
      = { success := false, status_code := some 500, model_header := none,
          response := none, error := some text }
    ∧ (test_deployment_result (NetOutcome.resp 500 hdrs text j)).status_code
      ≠ (test_deployment_result NetOutcome.timedOut).status_code := by
  refine ⟨rfl, ?_, ?_⟩ <;> simp [test_deployment_result]

/-- Concrete instance of claim C5 at a 500 response with a body. -/
theorem probe_timeout_distinct_from_500_witness :
    test_deployment_result NetOutcome.timedOut
      = { success := false, status_code := none, model_header := none,
          response := none, error := some "Request timeout" }
    ∧ test_deployment_result
        (NetOutcome.resp 500 [] "Internal Server Error" JVal.null)
      = { success := false, status_code := some 500, model_header := none,
          response := none, error := some "Internal Server Error" }
    ∧ (test_deployment_result
        (NetOutcome.resp 500 [] "Internal Server Error" JVal.null)).status_code
      ≠ (test_deployment_result NetOutcome.timedOut).status_code :=
  probe_timeout_distinct_from_500 [] "Internal Server Error" JVal.null

/-- Claim C6: a deployment whose configurationId equals no configuration
id in the listing contributes nothing to the correlation result, which is
computed as if that deployment were absent; the correlation is a total
function, so it never raises. -/
theorem correlate_dangling_excluded
    (base : Option String) (p : String → Bool)
    (configs : List PyConfiguration) (deps1 deps2 : List PyDeployment)
    (d : PyDeployment)
    (h : ∀ c ∈ configs, c.id ≠ d.configurationId) :
    correlate base p configs (deps1 ++ d :: deps2)
      = correlate base p configs (deps1 ++ deps2) := by
  unfold correlate
  have hempty :
      matches_for base (configs.filter (fun c => p (c.name.getD ""))) d
        = [] := by
    unfold matches_for
    rw [List.map_eq_nil_iff, List.filter_eq_nil_iff]
    intro oc hoc
    have hmem : oc ∈ configs := (List.mem_filter.mp hoc).1
    simp [h oc hmem]
  simp [List.flatMap_append, List.flatMap_cons, hempty]

/-- Concrete instance of claim C6: a deployment referencing the absent
configuration id cX is dropped and the remaining match set is unchanged. -/
theorem correlate_dangling_excluded_witness :
    (∀ c ∈ [(⟨some "c1", some "claude-4.5-opus"⟩ : PyConfiguration)],
      c.id ≠ some "cX")
    ∧ correlate (some "https://api.example.com") opus_name_test
        [⟨some "c1", some "claude-4.5-opus"⟩]
        ([] ++ (⟨some "d9", some "cX", some "RUNNING"⟩ : PyDeployment)
          :: [⟨some "d1", some "c1", some "RUNNING"⟩])
      = correlate (some "https://api.example.com") opus_name_test
        [⟨some "c1", some "claude-4.5-opus"⟩]
        ([] ++ [⟨some "d1", some "c1", some "RUNNING"⟩]) :=
  ⟨by decide,
   correlate_dangling_excluded (some "https://api.example.com")
     opus_name_test [⟨some "c1", some "claude-4.5-opus"⟩] []
     [⟨some "d1", some "c1", some "RUNNING"⟩]
     ⟨some "d9", some "cX", some "RUNNING"⟩ (by decide)⟩

/-- Claim C7: the derived deployment URL is the plain concatenation of the
API base, the fixed path segment, and the deployment id, and on the spec
test vector it is bit-exact. -/
theorem deployment_url_exact :
    (∀ b d, deployment_url b d = b ++ "/v2/inference/deployments/" ++ d)
    ∧ deployment_url "https://api.example.com" "d0c56b8d3578bd1b"
      = "https://api.example.com/v2/inference/deployments/d0c56b8d3578bd1b" :=
  ⟨fun _ _ => rfl, by decide⟩

/-- Claim C8: a probe delivered a 200 response with the test body yields a
successful result carrying that body, and the text extracted from the
first content block is the string test. -/
theorem probe_success_extracts_test :
    (test_deployment_result
        (NetOutcome.resp 200 [] "" probe_test_body)).success = true
    ∧ (test_deployment_result
        (NetOutcome.resp 200 [] "" probe_test_body)).response
      = some probe_test_body
    ∧ extract_first_text probe_test_body = some "test" :=
  ⟨rfl, rfl, rfl⟩

/-- Claim C9: both configuration-name classifications are case-insensitive
in the sense that names equal up to case classify alike, and classifying a
name equals classifying its lowercased form. -/
theorem classification_case_insensitive (s t : String)
    (h : pyLower s = pyLower t) :
    opus_name_test s = opus_name_test t
    ∧ claude_name_test s = claude_name_test t
    ∧ opus_name_test (pyLower s) = opus_name_test s
    ∧ claude_name_test (pyLower s) = claude_name_test s := by
  unfold opus_name_test claude_name_test
  rw [h, pyLower_idem]
  exact ⟨rfl, rfl, rfl, rfl⟩

/-- Concrete instance of claim C9 on a mixed-case opus name and its
lowercase variant. -/
theorem classification_case_insensitive_witness :
    pyLower "Claude-4.5-OPUS" = pyLower "claude-4.5-opus"
    ∧ (opus_name_test "Claude-4.5-OPUS" = opus_name_test "claude-4.5-opus"
      ∧ claude_name_test "Claude-4.5-OPUS"
        = claude_name_test "claude-4.5-opus"
      ∧ opus_name_test (pyLower "Claude-4.5-OPUS")
        = opus_name_test "Claude-4.5-OPUS"
      ∧ claude_name_test (pyLower "Claude-4.5-OPUS")
        = claude_name_test "Claude-4.5-OPUS") :=
  ⟨by decide, classification_case_insensitive _ _ (by decide)⟩

/-- Claim C10 counterexample: with the environment variable set to the
empty string the lookup returns the hardcoded constant, not the
environment value. -/
theorem get_auth_token_empty_env_counterexample :
    get_auth_token (some "") none = "sk-my-secret-key-123"
    ∧ get_auth_token (some "") none ≠ "" := by
  decide

/-- Claim C10 as amended: the lookup is total and resolves with fixed
precedence, except that the environment value wins only when it is set to
a non-empty string; a falsy environment value falls through to the first
entry of a non-empty token list of an existing config file, and then to
the hardcoded constant. -/
theorem get_auth_token_precedence (env : Option String)
    (cfg : Option ProxyConfig) :
    (∀ t, env = some t → t ≠ "" → get_auth_token env cfg = t)
    ∧ ((env = none ∨ env = some "") → ∀ c t ts, cfg = some c →
      c.secret_authentication_tokens = t :: ts →
      get_auth_token env cfg = t)
    ∧ ((env = none ∨ env = some "") →
      (cfg = none ∨ ∃ c, cfg = some c ∧
        c.secret_authentication_tokens = []) →
      get_auth_token env cfg = "sk-my-secret-key-123") := by
  refine ⟨?_, ?_, ?_⟩
  · intro t ht htne
    simp [get_auth_token, ht, htne]
  · rintro (he | he) c t ts hc hts <;> simp [get_auth_token, he, hc, hts]
  · rintro (he | he) (hc | ⟨c, hc, hts⟩)
    · simp [get_auth_token, he, hc]
    · simp [get_auth_token, he, hc, hts]
    · simp [get_auth_token, he, hc]
    · simp [get_auth_token, he, hc, hts]

/-- Concrete instances of the amended claim C10: a non-empty environment
value wins over a config token, an unset environment falls back to the
first config token, and an empty environment value with no config yields
the hardcoded constant. -/
theorem get_auth_token_precedence_witness :
    get_auth_token (some "env-token") (some ⟨["cfg-token"]⟩) = "env-token"
    ∧ get_auth_token none (some ⟨["cfg-token"]⟩) = "cfg-token"
    ∧ get_auth_token (some "") none = "sk-my-secret-key-123" :=
  ⟨(get_auth_token_precedence (some "env-token") (some ⟨["cfg-token"]⟩)).1
      "env-token" rfl (by decide),
   (get_auth_token_precedence none (some ⟨["cfg-token"]⟩)).2.1
      (Or.inl rfl) ⟨["cfg-token"]⟩ "cfg-token" [] rfl rfl,
   (get_auth_token_precedence (some "") none).2.2
      (Or.inr rfl) (Or.inl rfl)⟩
